/-
Verification of the tiptap-lit-editor UI-coordination layer.

Each definition is a shallow embedding of a function of the repository:
  * `shouldShowJs` / `shouldShowTs` embed the bubble-menu `shouldShow`
    predicates of `src/base-editor.js` and the TypeScript root editor.
  * `PromptDialog.*` embeds the state machine of
    `src/components/prompt-dialog.ts`.
  * `slashItems` embeds the suggestion `items` filter of
    `src/components/slash-command.ts` over the `BLOCK_TYPES` catalog.
  * `TableControls.*` embeds the first-row/first-column computation and
    header-row gating of the table-controls component.
  * `LoopState.*` embeds the animation-frame refresh-loop bookkeeping of
    the floating menu components.
  * `TipTapEditor.*` embeds the content-changed suppression and the
    getContent/setContent fallback of the root editor component.
-/
import Mathlib

set_option linter.all false

namespace TiptapLit

/-! ## Selection model and bubble-menu `shouldShow` -/

/-- A text selection as reported by the engine: the fields the code reads. -/
structure Sel where
  empty : Bool
  from_ : Nat
  to_ : Nat
deriving DecidableEq, Repr

/-- State consulted by the JS bubble-menu predicate: the view's dragging
flag and the selection. -/
structure BubbleInput where
  dragging : Bool
  sel : Sel
deriving DecidableEq, Repr

/-- `shouldShow` of `src/base-editor.js`: returns false while the view is
dragging, false when the selection is empty or `from === to`, true
otherwise. -/
def shouldShowJs (i : BubbleInput) : Bool :=
  if i.dragging then false
  else if i.sel.empty || i.sel.from_ == i.sel.to_ then false
  else true

/-- `shouldShow` of the TypeScript root editor (`!selection.empty`). -/
def shouldShowTs (s : Sel) : Bool :=
  !s.empty

/-! ## Prompt dialog (`src/components/prompt-dialog.ts`) -/

/-- Component state of the prompt dialog: the `@state` fields plus whether
a resolve callback is pending (`_resolve !== null`). -/
structure PromptState where
  message : String
  defaultValue : String
  inputValue : String
  pending : Bool
  dialogOpen : Bool
deriving DecidableEq, Repr

namespace PromptDialog

/-- A resolution event emitted to the caller: `some v` means the promise
resolved with `v`, where `v = none` models resolving with `null`. -/
abbrev Resolution := Option (Option String)

/-- `prompt(message, defaultValue)`: stores the request, marks a pending
resolve callback, opens the dialog, and seeds the input with the default. -/
def promptCall (s : PromptState) (message defaultValue : String) : PromptState :=
  { s with
    message := message
    defaultValue := defaultValue
    inputValue := defaultValue
    pending := true
    dialogOpen := true }

/-- `_handleInput`: the input field's value is copied into `_inputValue`. -/
def handleInput (s : PromptState) (v : String) : PromptState :=
  { s with inputValue := v }

/-- `_handleConfirm`: if a resolve callback is pending, resolve with
`_inputValue || null` (the empty string resolves as `null`) and clear the
callback; then close the dialog and clear the input. -/
def handleConfirm (s : PromptState) : PromptState × Resolution :=
  let out : Resolution :=
    if s.pending then some (if s.inputValue = "" then none else some s.inputValue)
    else none
  ({ s with pending := false, dialogOpen := false, inputValue := "" }, out)

/-- `_handleCancel`: if a resolve callback is pending, resolve with `null`
and clear the callback; then close the dialog and clear the input. -/
def handleCancel (s : PromptState) : PromptState × Resolution :=
  let out : Resolution := if s.pending then some none else none
  ({ s with pending := false, dialogOpen := false, inputValue := "" }, out)

/-- `_handleKeyDown`: Enter triggers confirm, Escape triggers cancel,
anything else leaves the state alone. -/
def handleKeyDown (s : PromptState) (key : String) : PromptState × Resolution :=
  if key = "Enter" then handleConfirm s
  else if key = "Escape" then handleCancel s
  else (s, none)

/-- `_handleDialogClose` (native dialog dismissal): if a resolve callback
is pending, resolve with `null` and clear it; the dialog is marked closed. -/
def handleDialogClose (s : PromptState) : PromptState × Resolution :=
  let out : Resolution := if s.pending then some none else none
  ({ s with pending := false, dialogOpen := false }, out)

end PromptDialog

/-! ## Slash command (`src/components/slash-command.ts`) -/

/-- Does `sub` occur at the head of `l`? (step function of
`String.prototype.includes`). -/
def leadMatch : List Char → List Char → Bool
  | [], _ => true
  | _ :: _, [] => false
  | a :: as, b :: bs => a == b && leadMatch as bs

/-- `String.prototype.includes` over character lists: `sub` occurs at some
position of the second list. -/
def subMatch (sub : List Char) : List Char → Bool
  | [] => leadMatch sub []
  | b :: rest => leadMatch sub (b :: rest) || subMatch sub rest

/-- `hay.includes(sub)` for JS strings. -/
def jsIncludes (hay sub : String) : Bool :=
  subMatch sub.toList hay.toList

/-- `String.prototype.toLowerCase` (ASCII range, which covers every label
in the catalog and every query over it). -/
def jsToLower (s : String) : String :=
  String.mk (s.toList.map Char.toLower)

/-- The engine commands a block-type item can issue when chosen. -/
inductive BlockCmd
  | setParagraph
  | setHeading (level : Nat)
  | toggleBulletList
  | toggleOrderedList
  | toggleCodeBlock
deriving DecidableEq, Repr

/-- One entry of the block-type catalog. -/
structure BlockTypeItem where
  label : String
  icon : String
  cmd : BlockCmd
deriving DecidableEq, Repr

/-- The `BLOCK_TYPES` catalog, in source order (the Table entry is
commented out in the source). -/
def BLOCK_TYPES : List BlockTypeItem :=
  [ { label := "Text", icon := "T", cmd := .setParagraph },
    { label := "Heading 1", icon := "H₁", cmd := .setHeading 1 },
    { label := "Heading 2", icon := "H₂", cmd := .setHeading 2 },
    { label := "Heading 3", icon := "H₃", cmd := .setHeading 3 },
    { label := "Heading 4", icon := "H₄", cmd := .setHeading 4 },
    { label := "Heading 5", icon := "H₅", cmd := .setHeading 5 },
    { label := "Heading 6", icon := "H₆", cmd := .setHeading 6 },
    { label := "Bullet List", icon := "≡", cmd := .toggleBulletList },
    { label := "Numbered List", icon := "1≡", cmd := .toggleOrderedList },
    { label := "Code Block", icon := "</>", cmd := .toggleCodeBlock } ]

/-- The suggestion plugin's `items` callback: filter the catalog to the
entries whose lower-cased label includes the lower-cased query. -/
def slashItems (query : String) : List BlockTypeItem :=
  BLOCK_TYPES.filter (fun item => jsIncludes (jsToLower item.label) (jsToLower query))

/-! ## Slash menu keyboard navigation (`slash-menu` component) -/

/-- Result of the slash menu's `onKeyDown`. -/
inductive NavResult
  | moveTo (index : Int)
  | select (index : Int)
  | unhandled
deriving DecidableEq, Repr

/-- `onKeyDown`: ArrowUp moves to `(selectedIndex - 1 + items.length) %
items.length`, ArrowDown to `(selectedIndex + 1) % items.length`, Enter
selects the item at the current index, everything else is unhandled.
JS `%` is truncated remainder, `Int.tmod`. -/
def slashOnKeyDown (key : String) (selectedIndex len : Int) : NavResult :=
  if key = "ArrowUp" then .moveTo (Int.tmod (selectedIndex - 1 + len) len)
  else if key = "ArrowDown" then .moveTo (Int.tmod (selectedIndex + 1) len)
  else if key = "Enter" then .select selectedIndex
  else .unhandled

/-- `_selectItem`: look up `this.items[index]`; the item-selected event is
dispatched only when an item exists there. -/
def slashSelectItem (items : List BlockTypeItem) (index : Nat) : Option BlockTypeItem :=
  items.get? index

/-! ## Engine handle and menu command dispatch -/

/-- The slice of engine state the menu components query. -/
structure Engine where
  activeMarks : List String
  activeHeadingLevels : List Nat
  linkHref : String
deriving DecidableEq, Repr

/-- `editor.isActive(name)`. -/
def Engine.isActive (e : Engine) (name : String) : Bool :=
  e.activeMarks.contains name

/-- `editor.isActive('heading', ...)` with a level attribute. -/
def Engine.isActiveHeading (e : Engine) (level : Nat) : Bool :=
  e.activeHeadingLevels.contains level

/-- Commands issued into the engine by the menu components. -/
inductive EngineCall
  | toggleBold
  | toggleItalic
  | setLink (href : String)
  | unsetLink
  | setImage (src : String)
  | toggleBulletList
  | toggleOrderedList
  | toggleHeading (level : Nat)
  | setParagraph
  | insertHeadingAt (pos : Int) (level : Nat)
  | insertParagraphAt (pos : Int)
  | insertBulletListAt (pos : Int)
  | insertOrderedListAt (pos : Int)
  | insertCodeBlockAt (pos : Int)
  | setTextSelection (pos : Int)
  | addColumnBefore
  | addColumnAfter
  | deleteColumn
  | addRowBefore
  | addRowAfter
  | deleteRow
  | toggleHeaderRow
  | deleteTable
deriving DecidableEq, Repr

/-- `BubbleMenu._isCommandActive`: false without an editor, otherwise the
engine's is-active predicate for the four recognised commands. -/
def isCommandActive (editor : Option Engine) (command : String) : Bool :=
  match editor with
  | none => false
  | some e =>
    if command = "bold" then e.isActive "bold"
    else if command = "italic" then e.isActive "italic"
    else if command = "bulletList" then e.isActive "bulletList"
    else if command = "orderedList" then e.isActive "orderedList"
    else false

/-- Derived booleans held by the bubble menu component. -/
structure BubbleDerived where
  isInList : Bool
  isInHeading : Bool
deriving DecidableEq, Repr

/-- `BubbleMenu._updateButtonStates`: returns early (state unchanged)
without an editor. -/
def updateButtonStates (editor : Option Engine) (s : BubbleDerived) : BubbleDerived :=
  match editor with
  | none => s
  | some e =>
    { isInList := e.isActive "bulletList" || e.isActive "orderedList"
      isInHeading := e.isActive "heading" }

/-- `BubbleMenu._handleClick`: no button found or no editor issues nothing;
link and image route through the prompt dialog, whose resolution decides
the command (`promptResult = none` models resolving with null). -/
def bubbleHandleClick (editor : Option Engine) (buttonCommand : Option String)
    (promptResult : Option String) : List EngineCall :=
  match buttonCommand, editor with
  | none, _ => []
  | some _, none => []
  | some command, some e =>
    if command = "bold" then [.toggleBold]
    else if command = "italic" then [.toggleItalic]
    else if command = "link" then
      match promptResult with
      | some url =>
        if url ≠ "" then [.setLink url]
        else if e.linkHref ≠ "" then [.unsetLink] else []
      | none => if e.linkHref ≠ "" then [.unsetLink] else []
    else if command = "image" then
      match promptResult with
      | some url => if url ≠ "" then [.setImage url] else []
      | none => []
    else if command = "bulletList" then [.toggleBulletList]
    else if command = "orderedList" then [.toggleOrderedList]
    else []

/-- `HeadingDropdown._getCurrentHeading`: null without an editor, else the
first level in 1..6 for which the heading is active. -/
def getCurrentHeading (editor : Option Engine) : Option Nat :=
  match editor with
  | none => none
  | some e => (List.range' 1 6).find? (fun level => e.isActiveHeading level)

/-- `HeadingDropdown._selectHeading`: nothing without an editor; in insert
mode with a position, insert a heading there and move the selection;
otherwise toggle the current block. -/
def selectHeading (editor : Option Engine) (mode : String) (insertPos : Option Int)
    (level : Nat) : List EngineCall :=
  match editor with
  | none => []
  | some _ =>
    match insertPos with
    | some pos =>
      if mode = "insert" then [.insertHeadingAt pos level, .setTextSelection (pos + 1)]
      else [.toggleHeading level]
    | none => [.toggleHeading level]

/-- `FloatingMenu._handleClick`: no button, no editor, or no remembered
position issues nothing; otherwise insert the chosen block at the
remembered position. -/
def floatingHandleClick (editor : Option Engine)
    (buttonCommand : Option (String × Option Nat)) (pos : Option Int) : List EngineCall :=
  match buttonCommand, editor with
  | none, _ => []
  | some _, none => []
  | some (command, level), some _ =>
    match pos with
    | none => []
    | some p =>
      if command = "bulletList" then [.insertBulletListAt p, .setTextSelection (p + 1)]
      else if command = "orderedList" then [.insertOrderedListAt p, .setTextSelection (p + 1)]
      else if command = "codeBlock" then [.insertCodeBlockAt p, .setTextSelection (p + 1)]
      else
        match level with
        | some l =>
          if command = "heading" then [.insertHeadingAt p l, .setTextSelection (p + 1)]
          else []
        | none => []

/-- `TableControls._handleCommand` (and the table bubble menu's switch):
nothing without an editor, else the named structural command. -/
def tableHandleCommand (editor : Option Engine) (command : String) : List EngineCall :=
  match editor with
  | none => []
  | some _ =>
    if command = "addColumnBefore" then [.addColumnBefore]
    else if command = "addColumnAfter" then [.addColumnAfter]
    else if command = "deleteColumn" then [.deleteColumn]
    else if command = "addRowBefore" then [.addRowBefore]
    else if command = "addRowAfter" then [.addRowAfter]
    else if command = "deleteRow" then [.deleteRow]
    else if command = "toggleHeaderRow" then [.toggleHeaderRow]
    else if command = "deleteTable" then [.deleteTable]
    else []

/-! ## Table controls geometry flags (`TableControls._updatePosition`) -/

/-- `Array.prototype.indexOf` with running start index: -1 when absent. -/
def jsIndexOfFrom (x : Nat) : List Nat → Nat → Int
  | [], _ => -1
  | a :: as, k => if a == x then (k : Int) else jsIndexOfFrom x as (k + 1)

/-- `Array.prototype.indexOf`. -/
def jsIndexOf (l : List Nat) (x : Nat) : Int :=
  jsIndexOfFrom x l 0

/-- A table row element: its identity and its cells in DOM order. -/
structure DomRow where
  id : Nat
  cells : List Nat
deriving DecidableEq, Repr

/-- A table element: its `tr` elements in document order (the order
`querySelectorAll` yields). -/
structure DomTable where
  rows : List DomRow
deriving DecidableEq, Repr

/-- `Array.from(row.cells).indexOf(cellNode)`. -/
def cellIndexIn (row : DomRow) (cellId : Nat) : Int :=
  jsIndexOf row.cells cellId

/-- `Array.from(tableNode.querySelectorAll('tr')).indexOf(row)`. -/
def rowIndexIn (t : DomTable) (rowId : Nat) : Int :=
  jsIndexOf (t.rows.map DomRow.id) rowId

/-- `this._isFirstRow = rowIndex === 0`. -/
def isFirstRowFlag (t : DomTable) (rowId : Nat) : Bool :=
  rowIndexIn t rowId == 0

/-- `this._isFirstColumn = cellIndex === 0`. -/
def isFirstColumnFlag (row : DomRow) (cellId : Nat) : Bool :=
  cellIndexIn row cellId == 0

/-- The toggle-header-row menu item is disabled unless `_isFirstRow`. -/
def toggleHeaderRowDisabled (isFirstRow : Bool) : Bool :=
  !isFirstRow

/-- The toggle-header-row click handler: the guard
`this._isFirstRow && this._handleCommand('toggleHeaderRow')` issues the
command only when `_isFirstRow` holds (and an editor is present). -/
def toggleHeaderRowClick (editor : Option Engine) (isFirstRow : Bool) : List EngineCall :=
  if isFirstRow then tableHandleCommand editor "toggleHeaderRow" else []

/-! ## Animation-frame refresh-loop bookkeeping -/

/-- Scheduling state of one floating-menu component: the stored frame
handle, the set of callbacks the browser still has scheduled, and the next
fresh frame id (browsers hand out positive ids, so truthiness of
`_updateFrame` coincides with presence). -/
structure LoopState where
  updateFrame : Option Nat
  scheduled : List Nat
  nextId : Nat
deriving DecidableEq, Repr

/-- Initial state: no frame stored, nothing scheduled. -/
def initLoop : LoopState :=
  { updateFrame := none, scheduled := [], nextId := 1 }

/-- `_cleanupEditorUpdates`: if a frame handle is stored, cancel it and
null the handle. -/
def cancelFrame (s : LoopState) : LoopState :=
  match s.updateFrame with
  | none => s
  | some i => { s with scheduled := s.scheduled.erase i, updateFrame := none }

/-- `requestAnimationFrame(updateLoop)` plus storing the handle. -/
def requestFrame (s : LoopState) : LoopState :=
  { updateFrame := some s.nextId, scheduled := s.scheduled ++ [s.nextId],
    nextId := s.nextId + 1 }

/-- `_setupEditorUpdates`: always cleans up first, then schedules a new
loop only when an editor is present. -/
def setupLoopState (hasEditor : Bool) (s : LoopState) : LoopState :=
  let s1 := cancelFrame s
  if hasEditor then requestFrame s1 else s1

/-- One animation frame fires: the scheduled callback runs; while the
component stays alive (editor present and connected) it reschedules,
otherwise it runs `_cleanupEditorUpdates`. -/
def tickLoopState (alive : Bool) (s : LoopState) : LoopState :=
  match s.updateFrame with
  | none => s
  | some i =>
    if i ∈ s.scheduled then
      let s1 := { s with scheduled := s.scheduled.erase i }
      if alive then requestFrame s1 else cancelFrame s1
    else s

/-- Lifecycle events that drive the scheduling state. -/
inductive LoopEvent
  | attach (hasEditor : Bool)
  | detach
  | contextUpdate (hasEditor : Bool)
  | frame (alive : Bool)
deriving DecidableEq, Repr

/-- Dispatch of the component callbacks: `connectedCallback` and
`firstUpdated` run `_setupEditorUpdates`, `disconnectedCallback` runs
`_cleanupEditorUpdates`, `updated` re-runs setup only when an editor is
present, and a frame runs the loop body. -/
def stepLoop (s : LoopState) : LoopEvent → LoopState
  | .attach hasEditor => setupLoopState hasEditor s
  | .detach => cancelFrame s
  | .contextUpdate hasEditor => if hasEditor then setupLoopState hasEditor s else s
  | .frame alive => tickLoopState alive s

/-- Run a sequence of lifecycle events from the initial state. -/
def runLoop (events : List LoopEvent) : LoopState :=
  events.foldl stepLoop initLoop

/-! ## Refresh throttle (loop body conditions) -/

/-- Everything one loop-body tick inspects. -/
structure TickInput where
  hasEditor : Bool
  connected : Bool
  visible : Bool
  now : Nat
  lastUpdateTime : Nat
deriving DecidableEq, Repr

/-- Bubble-menu `updateLoop` body: `_updateButtonStates` runs only when
the editor is present, the component is connected, it is visible, and at
least `_updateThrottle = 50` ms elapsed since the last refresh. -/
def bubbleTickRecomputes (i : TickInput) : Bool :=
  i.hasEditor && i.connected && (i.visible && decide (50 ≤ i.now - i.lastUpdateTime))

/-- TableControls `updateLoop` body: `_updatePosition` runs whenever the
editor is present, the component is connected, and 50 ms elapsed — there
is no visibility check in this variant. -/
def tableControlsTickRecomputes (i : TickInput) : Bool :=
  i.hasEditor && i.connected && decide (50 ≤ i.now - i.lastUpdateTime)

/-! ## Root editor component (`tiptap-editor`) -/

/-- State relevant to content-changed suppression. -/
structure EdState where
  isInitializing : Bool
  editedContent : String
deriving DecidableEq, Repr

/-- Events at the root component: an engine `onUpdate` after a content
mutation, the start of a programmatic content replacement (which sets
`_isInitializing` and applies `setContent` with `emitUpdate: false`, so no
`onUpdate` fires from it), and the deferred clearing of the flag. -/
inductive EdEvent
  | engineUpdate (content : String)
  | beginProgrammaticSet (content : String)
  | clearInitializing
deriving DecidableEq, Repr

/-- One step; the second component lists the detail payloads of the
content-changed events dispatched by this step. -/
def edStep (s : EdState) : EdEvent → EdState × List String
  | .engineUpdate c =>
    ({ s with editedContent := c }, if s.isInitializing then [] else [c])
  | .beginProgrammaticSet c =>
    ({ isInitializing := true, editedContent := c }, [])
  | .clearInitializing =>
    ({ s with isInitializing := false }, [])

/-- Run a sequence of events, collecting every dispatched event detail. -/
def edRun (s : EdState) : List EdEvent → EdState × List String
  | [] => (s, [])
  | e :: es =>
    let p := edStep s e
    let q := edRun p.1 es
    (q.1, p.2 ++ q.2)

/-- The piece of the engine the content accessors touch. -/
structure EngineDoc where
  content : String
  isDestroyed : Bool
deriving DecidableEq, Repr

/-- Root component fields behind `getContent`/`setContent`. -/
structure RootEditor where
  editor : Option EngineDoc
  editedContent : String
deriving DecidableEq, Repr

/-- `this._editor && !this._editor.isDestroyed`. -/
def engineLive : Option EngineDoc → Bool
  | none => false
  | some e => !e.isDestroyed

/-- `getContent()`: the engine's serialisation while the editor is live,
else the last recorded `_editedContent`. -/
def getContent (s : RootEditor) : String :=
  match s.editor with
  | some e => if !e.isDestroyed then e.content else s.editedContent
  | none => s.editedContent

/-- `setContent(content)`: forward to the live engine when there is one;
always record `_editedContent`. -/
def setContent (s : RootEditor) (c : String) : RootEditor :=
  match s.editor with
  | some e =>
    if !e.isDestroyed then
      { editor := some { e with content := c }, editedContent := c }
    else { s with editedContent := c }
  | none => { s with editedContent := c }

/-! ## C1: bubble-menu show/hide -/

/-- C1 counterexample: base-editor.js hides the bubble menu while the view
is dragging even though the selection has empty = false and from ≠ to, so
"visible whenever empty = false" fails as stated. -/
theorem shouldShow_dragging_refutes_claim :
    ({ dragging := true, sel := { empty := false, from_ := 2, to_ := 7 } } : BubbleInput).sel.empty
        = false ∧
    ({ dragging := true, sel := { empty := false, from_ := 2, to_ := 7 } } : BubbleInput).sel.from_
        ≠ ({ dragging := true, sel := { empty := false, from_ := 2, to_ := 7 } } : BubbleInput).sel.to_ ∧
    shouldShowJs { dragging := true, sel := { empty := false, from_ := 2, to_ := 7 } } = false := by
  decide

/-- C1 (amended): while the view is dragging, base-editor.js's shouldShow
is false regardless of the selection; when not dragging it is true exactly
when the selection is non-empty and non-collapsed. The TypeScript
editor's shouldShow checks only empty, which agrees under the engine
invariant that empty holds exactly when from equals to. -/
theorem shouldShow_visibility (i : BubbleInput) :
    (i.dragging = true → shouldShowJs i = false) ∧
    (i.dragging = false →
      shouldShowJs i = (!i.sel.empty && !(i.sel.from_ == i.sel.to_))) ∧
    (i.sel.empty = (i.sel.from_ == i.sel.to_) →
      shouldShowTs i.sel = (!i.sel.empty && !(i.sel.from_ == i.sel.to_))) := by
  refine ⟨fun h => ?_, fun h => ?_, fun h => ?_⟩
  · simp [shouldShowJs, h]
  · cases hb : i.sel.empty <;> cases hc : (i.sel.from_ == i.sel.to_) <;>
      simp [shouldShowJs, h, hb, hc]
  · cases hc : (i.sel.from_ == i.sel.to_) <;>
      simp [shouldShowTs, h, hc]

/-- C1 witness: a non-dragging, non-empty, non-collapsed selection shows
the menu under both embeddings. -/
theorem shouldShow_visibility_witness :
    shouldShowJs { dragging := false, sel := { empty := false, from_ := 2, to_ := 7 } } = true ∧
    shouldShowTs { empty := false, from_ := 2, to_ := 7 } = true := by
  constructor
  · have h := (shouldShow_visibility
      { dragging := false, sel := { empty := false, from_ := 2, to_ := 7 } }).2.1 rfl
    rw [h]; decide
  · have h := (shouldShow_visibility
      { dragging := false, sel := { empty := false, from_ := 2, to_ := 7 } }).2.2 (by decide)
    rw [h]; decide

/-! ## C2: prompt dialog resolution -/

/-- C2: after prompt(message, default) and typing v, Enter resolves with v
(null when v is empty) and Escape resolves with null; with a pending
callback, OK resolves with the current input (null when empty) and
Cancel or dismissal resolve with null; each of these clears the callback,
and with no pending callback none of them resolves again. -/
theorem prompt_resolution (t : PromptState) (m d v : String) :
    ((PromptDialog.handleKeyDown
        (PromptDialog.handleInput (PromptDialog.promptCall t m d) v) "Enter").2
      = some (if v = "" then none else some v)) ∧
    ((PromptDialog.handleKeyDown
        (PromptDialog.handleInput (PromptDialog.promptCall t m d) v) "Escape").2
      = some none) ∧
    (t.pending = true →
      (PromptDialog.handleConfirm t).2
          = some (if t.inputValue = "" then none else some t.inputValue) ∧
      (PromptDialog.handleCancel t).2 = some none ∧
      (PromptDialog.handleDialogClose t).2 = some none) ∧
    ((PromptDialog.handleConfirm t).1.pending = false ∧
      (PromptDialog.handleCancel t).1.pending = false ∧
      (PromptDialog.handleDialogClose t).1.pending = false) ∧
    (t.pending = false →
      (PromptDialog.handleConfirm t).2 = none ∧
      (PromptDialog.handleCancel t).2 = none ∧
      (PromptDialog.handleDialogClose t).2 = none) := by
  refine ⟨rfl, rfl, fun h => ?_, ⟨rfl, rfl, rfl⟩, fun h => ?_⟩
  · refine ⟨?_, ?_, ?_⟩ <;>
      simp [PromptDialog.handleConfirm, PromptDialog.handleCancel,
        PromptDialog.handleDialogClose, h]
  · refine ⟨?_, ?_, ?_⟩ <;>
      simp [PromptDialog.handleConfirm, PromptDialog.handleCancel,
        PromptDialog.handleDialogClose, h]

/-- C2 witness: the spec's own scenario, plus one Cancel resolution. -/
theorem prompt_resolution_witness :
    (PromptDialog.handleKeyDown
        (PromptDialog.handleInput
          (PromptDialog.promptCall
            { message := "", defaultValue := "", inputValue := "",
              pending := false, dialogOpen := false } "Enter URL:" "https://x")
          "https://y") "Enter").2
      = some (some "https://y") ∧
    (PromptDialog.handleCancel
        { message := "m", defaultValue := "", inputValue := "x",
          pending := true, dialogOpen := true }).2 = some none := by
  constructor
  · have h := (prompt_resolution
      { message := "", defaultValue := "", inputValue := "",
        pending := false, dialogOpen := false } "Enter URL:" "https://x" "https://y").1
    rw [h]; decide
  · exact ((prompt_resolution
      { message := "m", defaultValue := "", inputValue := "x",
        pending := true, dialogOpen := true } "" "" "").2.2.1 rfl).2.1

/-! ## C3: slash-command filtering -/

/-- C3: the query "head" filters the catalog to exactly Heading 1..6; for
every query the shown list is a sublist of the catalog (catalog order
preserved), and an item is shown exactly when it is a catalog entry whose
label contains the query case-insensitively. -/
theorem slash_filtering :
    ((slashItems "head").map BlockTypeItem.label =
      ["Heading 1", "Heading 2", "Heading 3", "Heading 4", "Heading 5", "Heading 6"]) ∧
    (∀ q : String, List.Sublist (slashItems q) BLOCK_TYPES) ∧
    (∀ q : String, ∀ item : BlockTypeItem,
      item ∈ slashItems q ↔
        item ∈ BLOCK_TYPES ∧ jsIncludes (jsToLower item.label) (jsToLower q) = true) := by
  refine ⟨by decide, fun q => ?_, fun q item => ?_⟩
  · exact List.filter_sublist _
  · simpa [slashItems] using List.mem_filter

/-- C3 witness: Heading 1 is among the items shown for "head". -/
theorem slash_filtering_witness :
    ({ label := "Heading 1", icon := "H₁", cmd := .setHeading 1 } : BlockTypeItem)
      ∈ slashItems "head" := by
  exact (slash_filtering.2.2 "head"
    { label := "Heading 1", icon := "H₁", cmd := .setHeading 1 }).mpr (by decide)

/-! ## C4: table first-row/first-column flags and header-row gating -/

/-- C4: when the selection's cell is the first cell of the first row, both
derived flags are true; the toggle-header-row item is enabled exactly when
the first-row flag holds, and its click handler issues the command exactly
in that case. -/
theorem table_first_flags (t : DomTable) (r : DomRow) (c : Nat) (e : Engine)
    (hrow : t.rows.head? = some r) (hcell : r.cells.head? = some c) :
    isFirstRowFlag t r.id = true ∧
    isFirstColumnFlag r c = true ∧
    toggleHeaderRowDisabled true = false ∧
    toggleHeaderRowDisabled false = true ∧
    toggleHeaderRowClick (some e) true = [EngineCall.toggleHeaderRow] ∧
    (∀ editor : Option Engine, toggleHeaderRowClick editor false = []) := by
  obtain ⟨rows', hrows⟩ : ∃ rows', t.rows = r :: rows' := by
    cases h : t.rows with
    | nil => rw [h] at hrow; cases hrow
    | cons a tl =>
      rw [h] at hrow
      simp only [List.head?_cons, Option.some.injEq] at hrow
      exact ⟨tl, by rw [hrow]⟩
  obtain ⟨cells', hcells⟩ : ∃ cells', r.cells = c :: cells' := by
    cases h : r.cells with
    | nil => rw [h] at hcell; cases hcell
    | cons a tl =>
      rw [h] at hcell
      simp only [List.head?_cons, Option.some.injEq] at hcell
      exact ⟨tl, by rw [hcell]⟩
  refine ⟨?_, ?_, rfl, rfl, rfl, fun editor => rfl⟩
  · simp [isFirstRowFlag, rowIndexIn, jsIndexOf, hrows, jsIndexOfFrom]
  · simp [isFirstColumnFlag, cellIndexIn, jsIndexOf, hcells, jsIndexOfFrom]

/-- C4 witness: a concrete two-by-two table with the anchor in its first
cell. -/
theorem table_first_flags_witness :
    isFirstRowFlag { rows := [{ id := 10, cells := [20, 21] }, { id := 11, cells := [22, 23] }] } 10
      = true ∧
    isFirstColumnFlag { id := 10, cells := [20, 21] } 20 = true ∧
    toggleHeaderRowClick (some { activeMarks := [], activeHeadingLevels := [], linkHref := "" })
      true = [EngineCall.toggleHeaderRow] := by
  have h := table_first_flags
    { rows := [{ id := 10, cells := [20, 21] }, { id := 11, cells := [22, 23] }] }
    { id := 10, cells := [20, 21] } 20
    { activeMarks := [], activeHeadingLevels := [], linkHref := "" } rfl rfl
  exact ⟨h.1, h.2.1, h.2.2.2.2.1⟩

/-! ## C10: content round-trip without a live engine -/

/-- C10: with the editor instance null or destroyed, setContent followed
by getContent returns exactly the content that was set. -/
theorem content_roundtrip_no_engine (s : RootEditor) (c : String)
    (h : engineLive s.editor = false) :
    getContent (setContent s c) = c := by
  cases he : s.editor with
  | none => simp [setContent, getContent, he]
  | some e =>
    have hd : e.isDestroyed = true := by
      simpa [engineLive, he] using h
    simp [setContent, getContent, he, hd]

/-- C10 witness: round-trip through a null editor. -/
theorem content_roundtrip_no_engine_witness :
    getContent (setContent { editor := none, editedContent := "old" } "new") = "new" := by
  exact content_roundtrip_no_engine { editor := none, editedContent := "old" } "new" rfl

/-! ## C5: single refresh loop -/

/-- Invariant tying the stored frame handle to what the browser still has
scheduled: they are the same zero-or-one callbacks. -/
def loopInv (s : LoopState) : Prop :=
  s.scheduled = s.updateFrame.toList

theorem loopInv_init : loopInv initLoop := rfl

theorem loopInv_cancelFrame {s : LoopState} (h : loopInv s) : loopInv (cancelFrame s) := by
  unfold loopInv at *
  cases hf : s.updateFrame with
  | none => simpa [cancelFrame, hf] using h
  | some i =>
    rw [hf] at h
    simp [cancelFrame, hf, h]

theorem loopInv_requestFrame {s : LoopState} (h : s.scheduled = []) :
    loopInv (requestFrame s) := by
  simp [loopInv, requestFrame, h]

theorem cancelFrame_scheduled_nil {s : LoopState} (h : loopInv s) :
    (cancelFrame s).scheduled = [] := by
  have h2 := loopInv_cancelFrame h
  unfold loopInv at h2
  cases hf : s.updateFrame with
  | none =>
    unfold loopInv at h
    rw [hf] at h
    simpa [cancelFrame, hf] using h
  | some i =>
    simpa [cancelFrame, hf] using h2

theorem loopInv_setup {s : LoopState} (h : loopInv s) (hasEditor : Bool) :
    loopInv (setupLoopState hasEditor s) := by
  unfold setupLoopState
  cases hasEditor with
  | false => simpa using loopInv_cancelFrame h
  | true =>
    simp only [if_true]
    exact loopInv_requestFrame (cancelFrame_scheduled_nil h)

theorem loopInv_tick {s : LoopState} (h : loopInv s) (alive : Bool) :
    loopInv (tickLoopState alive s) := by
  unfold tickLoopState
  cases hf : s.updateFrame with
  | none => exact h
  | some i =>
    have hs : s.scheduled = [i] := by
      unfold loopInv at h; rw [hf] at h; simpa using h
    simp only [hs, List.mem_singleton, if_pos rfl, List.erase_cons_head]
    cases alive with
    | true => exact loopInv_requestFrame rfl
    | false => simp [cancelFrame, loopInv]

theorem loopInv_step {s : LoopState} (h : loopInv s) (e : LoopEvent) :
    loopInv (stepLoop s e) := by
  cases e with
  | attach hasEditor => exact loopInv_setup h hasEditor
  | detach => exact loopInv_cancelFrame h
  | contextUpdate hasEditor =>
    cases hasEditor with
    | false => exact h
    | true => exact loopInv_setup h true
  | frame alive => exact loopInv_tick h alive

theorem loopInv_foldl (events : List LoopEvent) :
    ∀ s : LoopState, loopInv s → loopInv (events.foldl stepLoop s) := by
  induction events with
  | nil => intro s h; exact h
  | cons e es ih => intro s h; exact ih _ (loopInv_step h e)

theorem loopInv_length {s : LoopState} (h : loopInv s) : s.scheduled.length ≤ 1 := by
  unfold loopInv at h
  rw [h]
  cases s.updateFrame <;> simp

/-- C5: after any sequence of attach/detach/context-update/frame events,
at most one animation-frame callback is scheduled; and a further
(re-entrant) setup call from any reachable state keeps it that way,
because setup always cancels the stored frame before scheduling. -/
theorem single_refresh_loop (events : List LoopEvent) :
    (runLoop events).scheduled.length ≤ 1 ∧
    (∀ hasEditor : Bool, (setupLoopState hasEditor (runLoop events)).scheduled.length ≤ 1) := by
  have hinv : loopInv (runLoop events) := loopInv_foldl events initLoop loopInv_init
  exact ⟨loopInv_length hinv, fun hasEditor => loopInv_length (loopInv_setup hinv hasEditor)⟩

/-! ## C6: refresh throttle -/

/-- C6 counterexample: the TableControls loop body recomputes on a tick
whose component is not visible (display none), since this variant has no
visibility check; the claim requires no recomputation there. -/
theorem table_tick_visibility_refutes_claim :
    tableControlsTickRecomputes
        { hasEditor := true, connected := true, visible := false,
          now := 100, lastUpdateTime := 0 } = true ∧
    ({ hasEditor := true, connected := true, visible := false,
        now := 100, lastUpdateTime := 0 } : TickInput).visible = false := by
  decide

/-- C6 (amended): the bubble-menu (and table-bubble-menu) tick recomputes
exactly when the editor is present, the component is attached, it is
visible, and at least 50 ms elapsed; the TableControls tick omits the
visibility condition and recomputes exactly when the editor is present,
the component is attached, and at least 50 ms elapsed. -/
theorem refresh_throttle (i : TickInput) :
    (bubbleTickRecomputes i = true ↔
      (i.hasEditor = true ∧ i.connected = true ∧ i.visible = true ∧
        50 ≤ i.now - i.lastUpdateTime)) ∧
    (tableControlsTickRecomputes i = true ↔
      (i.hasEditor = true ∧ i.connected = true ∧ 50 ≤ i.now - i.lastUpdateTime)) := by
  constructor <;>
    simp [bubbleTickRecomputes, tableControlsTickRecomputes, and_assoc]

/-- C6 witness: a visible, attached tick 60 ms after the last refresh
recomputes in both variants. -/
theorem refresh_throttle_witness :
    bubbleTickRecomputes
        { hasEditor := true, connected := true, visible := true,
          now := 60, lastUpdateTime := 0 } = true ∧
    tableControlsTickRecomputes
        { hasEditor := true, connected := true, visible := true,
          now := 60, lastUpdateTime := 0 } = true := by
  constructor
  · exact ((refresh_throttle
      { hasEditor := true, connected := true, visible := true,
        now := 60, lastUpdateTime := 0 }).1).mpr ⟨rfl, rfl, rfl, by norm_num⟩
  · exact ((refresh_throttle
      { hasEditor := true, connected := true, visible := true,
        now := 60, lastUpdateTime := 0 }).2).mpr ⟨rfl, rfl, by norm_num⟩

/-! ## C7: null engine handle no-ops -/

/-- C7: with a null engine handle, every click/command handler issues no
engine call (and, being total functions, none of them throws), every
active-state query is false or inactive, and derived state is left
unchanged. -/
theorem null_engine_noop :
    (∀ buttonCommand promptResult, bubbleHandleClick none buttonCommand promptResult = []) ∧
    (∀ command, isCommandActive none command = false) ∧
    (∀ s : BubbleDerived, updateButtonStates none s = s) ∧
    getCurrentHeading none = none ∧
    (∀ mode insertPos level, selectHeading none mode insertPos level = []) ∧
    (∀ buttonCommand pos, floatingHandleClick none buttonCommand pos = []) ∧
    (∀ command, tableHandleCommand none command = []) ∧
    (∀ isFirstRow, toggleHeaderRowClick none isFirstRow = []) := by
  refine ⟨fun b p => ?_, fun command => rfl, fun s => rfl, rfl,
    fun mode insertPos level => rfl, fun b pos => ?_, fun command => rfl,
    fun isFirstRow => ?_⟩
  · cases b <;> rfl
  · cases b <;> rfl
  · cases isFirstRow <;> rfl

/-! ## C8: content-changed suppression -/

theorem edRun_initializing (events : List EdEvent)
    (hall : ∀ e ∈ events, ∃ c', e = EdEvent.engineUpdate c') :
    ∀ s : EdState, s.isInitializing = true →
      (edRun s events).2 = [] ∧ (edRun s events).1.isInitializing = true := by
  induction events with
  | nil => intro s h; exact ⟨rfl, h⟩
  | cons e es ih =>
    intro s h
    obtain ⟨c', rfl⟩ := hall e (List.mem_cons_self e es)
    have hall' : ∀ e ∈ es, ∃ c', e = EdEvent.engineUpdate c' :=
      fun e he => hall e (List.mem_cons_of_mem _ he)
    have step2 : (edStep s (EdEvent.engineUpdate c')).2 = [] := by
      simp [edStep, h]
    have step1 : (edStep s (EdEvent.engineUpdate c')).1.isInitializing = true := by
      simp [edStep, h]
    have hrest := (ih hall') _ step1
    simp [edRun, step2, hrest.1, hrest.2]

/-- C8: an engine content mutation dispatches content-changed exactly when
the initializing flag is not set, and after a programmatic content
replacement sets the flag, no content-changed fires across any run of
engine updates until the deferred clearing event. -/
theorem content_changed_suppression (s : EdState) (c : String) (events : List EdEvent) :
    ((edStep s (.engineUpdate c)).2 = if s.isInitializing then [] else [c]) ∧
    ((∀ e ∈ events, ∃ c', e = EdEvent.engineUpdate c') →
      (edRun (edStep s (.beginProgrammaticSet c)).1 events).2 = []) := by
  constructor
  · rfl
  · intro hall
    exact (edRun_initializing events hall _ rfl).1

/-- C8 witness: an engine update inside the suppression window emits
nothing. -/
theorem content_changed_suppression_witness :
    (edRun (edStep { isInitializing := false, editedContent := "" }
        (.beginProgrammaticSet "a")).1 [EdEvent.engineUpdate "b"]).2 = [] ∧
    (edStep { isInitializing := false, editedContent := "" } (.engineUpdate "b")).2 = ["b"] := by
  constructor
  · refine (content_changed_suppression
      { isInitializing := false, editedContent := "" } "a" [EdEvent.engineUpdate "b"]).2 ?_
    intro e he
    rw [List.mem_singleton] at he
    exact ⟨"b", he⟩
  · have h := (content_changed_suppression
      { isInitializing := false, editedContent := "" } "b" []).1
    rw [h]; decide

/-! ## C9: slash-menu keyboard navigation wraps -/

/-- C9: with n items and selected index i in bounds, ArrowUp moves to
(i - 1 + n) mod n and ArrowDown to (i + 1) mod n, so the selection wraps
at both ends, and Enter selects the item at the current index. -/
theorem slash_nav_wraps (n i : Int) (hn : 0 < n) (h0 : 0 ≤ i) (hi : i < n) :
    slashOnKeyDown "ArrowUp" i n = .moveTo ((i - 1 + n) % n) ∧
    slashOnKeyDown "ArrowDown" i n = .moveTo ((i + 1) % n) ∧
    (i = 0 → slashOnKeyDown "ArrowUp" i n = .moveTo (n - 1)) ∧
    (i = n - 1 → slashOnKeyDown "ArrowDown" i n = .moveTo 0) ∧
    slashOnKeyDown "Enter" i n = .select i ∧
    (∀ items : List BlockTypeItem, ∀ h : i.toNat < items.length,
      slashSelectItem items i.toNat = some (items.get ⟨i.toNat, h⟩)) := by
  have hup : slashOnKeyDown "ArrowUp" i n = .moveTo ((i - 1 + n) % n) := by
    show NavResult.moveTo (Int.tmod (i - 1 + n) n) = _
    rw [Int.tmod_eq_emod (by omega) (by omega)]
  have hdown : slashOnKeyDown "ArrowDown" i n = .moveTo ((i + 1) % n) := by
    show NavResult.moveTo (Int.tmod (i + 1) n) = _
    rw [Int.tmod_eq_emod (by omega) (by omega)]
  refine ⟨hup, hdown, fun h => ?_, fun h => ?_, rfl, fun items h => ?_⟩
  · rw [hup, h]
    congr 1
    rw [Int.emod_eq_of_lt (by omega) (by omega)]
    omega
  · rw [hdown, h]
    congr 1
    simp
  · exact List.get?_eq_get h

/-- C9 witness: with three items, ArrowUp at index 0 wraps to 2, ArrowDown
at index 2 wraps to 0, and Enter at index 1 selects index 1. -/
theorem slash_nav_wraps_witness :
    slashOnKeyDown "ArrowUp" 0 3 = .moveTo 2 ∧
    slashOnKeyDown "ArrowDown" 2 3 = .moveTo 0 ∧
    slashOnKeyDown "Enter" 1 3 = .select 1 := by
  refine ⟨?_, ?_, ?_⟩
  · have h := (slash_nav_wraps 3 0 (by norm_num) le_rfl (by norm_num)).2.2.1 rfl
    simpa using h
  · have h := (slash_nav_wraps 3 2 (by norm_num) (by norm_num) (by norm_num)).2.2.2.1
      (by norm_num)
    simpa using h
  · exact (slash_nav_wraps 3 1 (by norm_num) (by norm_num) (by norm_num)).2.2.2.2.1

end TiptapLit
